import Mathlib

/-!
Shallow embedding of the fate-sharing / deferred-signal core of
`src/python/ray/_private/utils.py`:
  * `DeferSigint` (context manager deferring SIGINT),
  * `detect_fate_sharing_support_linux` / `_win32` / `detect_fate_sharing_support`,
  * `set_kill_on_parent_death_linux` / `set_kill_child_on_death_win32`.

The Python module's global signal-dispatch state (the active SIGINT handler and
the `signal.signal` binding) is passed explicitly; the OS is an oracle record
`Env`; exceptions become `Option PyExc` / `Except`.
-/

/-- Python exceptions that the modelled code can raise or propagate. -/
inductive PyExc where
  /-- `KeyboardInterrupt`, raised by `DeferSigint.__exit__` on a deferred signal. -/
  | keyboardInterrupt
  /-- `ValueError`, raised by `_signal_monkey_patch` (and by CPython's
  `signal.signal` when called off the main thread). -/
  | valueError
  /-- A failed `assert`. -/
  | assertionError
  /-- An arbitrary exception raised by a guarded body, tagged by a number. -/
  | userExc (n : Nat)
  deriving DecidableEq, Repr

/-- A value installed as a SIGINT handler. `α` tags arbitrary pre-existing
handlers; `deferH` is the bound method `DeferSigint._set_task_cancelled` of the
active guard. -/
inductive Handler (α : Type) where
  | user (h : α)
  | deferH
  deriving DecidableEq, Repr

/-- The function object currently bound to the module attribute `signal.signal`.
`base f` tags an arbitrary pre-existing registration function (with the standard
CPython call behaviour); `monkeyPatch` is `DeferSigint._signal_monkey_patch` of
the active guard. -/
inductive RegFn (β : Type) where
  | base (f : β)
  | monkeyPatch
  deriving DecidableEq, Repr

/-- The process-wide signal-dispatch state the guard manipulates: the active
SIGINT handler and the current `signal.signal` binding. Only SIGINT is
modelled; the source code touches no other signal. -/
structure SigState (α β : Type) where
  sigint_handler : Handler α
  signal_fn : RegFn β
  deriving DecidableEq, Repr

/-- The fields of a `DeferSigint` instance (`__init__` sets all three). -/
structure DeferSigint (α β : Type) where
  task_cancelled : Bool
  orig_sigint_handler : Option (Handler α)
  orig_signal : Option (RegFn β)
  deriving DecidableEq, Repr

/-- `DeferSigint.__init__`. -/
def DeferSigint.init (α β : Type) : DeferSigint α β :=
  ⟨false, none, none⟩

/-- `DeferSigint._set_task_cancelled(signum, frame)`: the deferring SIGINT
handler; it only records the arrival. -/
def DeferSigint.set_task_cancelled (g : DeferSigint α β) : DeferSigint α β :=
  { g with task_cancelled := true }

/-- Calling the function currently stored in `fnVal` as
`signal.signal(signal.SIGINT, h)` from a thread with main-ness `isMain`.
A `base` function (the real `signal.signal`) installs the handler on the main
thread and raises `ValueError` elsewhere (CPython restricts handler
installation to the main thread). The guard's `_signal_monkey_patch` raises
`ValueError` for SIGINT on the main thread; off the main thread it delegates to
the saved original, which itself raises `ValueError` off-main, so the call
raises `ValueError` in every modelled configuration. -/
def callRegFn (isMain : Bool) (fnVal : RegFn β) (s : SigState α β)
    (h : Handler α) : Except PyExc (SigState α β) :=
  match fnVal with
  | .base _ =>
      if isMain then .ok { s with sigint_handler := h } else .error .valueError
  | .monkeyPatch => .error .valueError

/-- One step a guarded body can take: an asynchronous SIGINT delivery, an
attempt to register a SIGINT handler via the current `signal.signal` binding,
or raising an exception. -/
inductive BodyEvent (α : Type) where
  | sigint
  | setHandler (h : Handler α)
  | raiseE (e : PyExc)
  deriving DecidableEq, Repr

/-- Delivery of SIGINT: the interpreter invokes the currently installed
handler. `deferH` runs `_set_task_cancelled`; a pre-existing `user` handler is
external to this module and is modelled as not touching the modelled state. -/
def deliverSigint (g : DeferSigint α β) (s : SigState α β) :
    DeferSigint α β × SigState α β :=
  match s.sigint_handler with
  | .deferH => (g.set_task_cancelled, s)
  | .user _ => (g, s)

/-- Runs a body, one event at a time. An exception raised by an event aborts
the remaining events and propagates (third component). -/
def runBody (isMain : Bool) (g : DeferSigint α β) (s : SigState α β) :
    List (BodyEvent α) → DeferSigint α β × SigState α β × Option PyExc
  | [] => (g, s, none)
  | ev :: rest =>
    match ev with
    | .sigint =>
        let (g', s') := deliverSigint g s
        runBody isMain g' s' rest
    | .setHandler h =>
        match callRegFn isMain s.signal_fn s h with
        | .error e => (g, s, some e)
        | .ok s' => runBody isMain g s' rest
    | .raiseE e => (g, s, some e)

/-- `DeferSigint.__enter__`: saves the current SIGINT handler, installs
`_set_task_cancelled` via the current `signal.signal`, saves the current
`signal.signal`, and rebinds it to `_signal_monkey_patch`. -/
def DeferSigint.enterCtx (isMain : Bool) (g : DeferSigint α β)
    (s : SigState α β) : Except PyExc (DeferSigint α β × SigState α β) :=
  let g1 := { g with orig_sigint_handler := some s.sigint_handler }
  match callRegFn isMain s.signal_fn s .deferH with
  | .error e => .error e
  | .ok s1 =>
      let g2 := { g1 with orig_signal := some s1.signal_fn }
      .ok (g2, { s1 with signal_fn := .monkeyPatch })

/-- A restoration action performed by `__exit__`, in execution order. -/
inductive RestoreStep (α β : Type) where
  | restoredSignalFn (f : RegFn β)
  | restoredHandler (h : Handler α)
  deriving DecidableEq, Repr

/-- The outcome of leaving the scope: final signal-dispatch state, the
exception propagating out (if any), and the restoration actions performed. -/
structure ExitOut (α β : Type) where
  state : SigState α β
  exc : Option PyExc
  restoreTrace : List (RestoreStep α β)
  deriving DecidableEq, Repr

/-- `DeferSigint.__exit__(exc_type, exc, exc_tb)`: asserts both saved values
are present, rebinds `signal.signal` to the saved original, then calls it to
reinstall the saved SIGINT handler; if the body raised nothing and
`task_cancelled` is set, raises `KeyboardInterrupt`; otherwise returns `False`
so the body's exception (if any) keeps propagating. Runs on the guard's own
(main) thread. -/
def DeferSigint.exitCtx (g : DeferSigint α β) (s : SigState α β)
    (excIn : Option PyExc) : ExitOut α β :=
  match g.orig_signal, g.orig_sigint_handler with
  | some fOrig, some hOrig =>
      let s1 := { s with signal_fn := fOrig }
      match callRegFn true fOrig s1 hOrig with
      | .error e => ⟨s1, some e, [.restoredSignalFn fOrig]⟩
      | .ok s2 =>
          let tr := [RestoreStep.restoredSignalFn fOrig,
                     RestoreStep.restoredHandler hOrig]
          match excIn with
          | none =>
              if g.task_cancelled then ⟨s2, some .keyboardInterrupt, tr⟩
              else ⟨s2, none, tr⟩
          | some e => ⟨s2, some e, tr⟩
  | _, _ => ⟨s, some .assertionError, []⟩

/-- `with DeferSigint(): body` executed on the main thread. -/
def runWithGuard (s : SigState α β) (body : List (BodyEvent α)) : ExitOut α β :=
  match DeferSigint.enterCtx true (DeferSigint.init α β) s with
  | .error e => ⟨s, some e, []⟩
  | .ok (g1, s1) =>
      let r := runBody true g1 s1 body
      DeferSigint.exitCtx r.1 r.2.1 r.2.2

/-- `with DeferSigint.create_if_main_thread(): body`: on the main thread this
is `runWithGuard`; on any other thread `create_if_main_thread` returns
`contextlib.nullcontext()`, so the body runs with no interception and no
restoration. -/
def runDeferSigintGuard (isMain : Bool) (s : SigState α β)
    (body : List (BodyEvent α)) : ExitOut α β :=
  if isMain then runWithGuard s body
  else
    let r := runBody false (DeferSigint.init α β) s body
    ⟨r.2.1, r.2.2, []⟩

/-- The body phase of a main-thread guarded run started from pre-existing
handler `H` and registration function `f`: `__enter__` has installed `deferH`
and `monkeyPatch` and saved `H` and `base f`. -/
def guardedBodyRun (H : Handler α) (f : β) (body : List (BodyEvent α)) :
    DeferSigint α β × SigState α β × Option PyExc :=
  runBody true ⟨false, some H, some (.base f)⟩ ⟨.deferH, .monkeyPatch⟩ body

/-!
Fate-sharing capability detection and binding. The module globals
`linux_prctl`, `win32_job`, `win32_AssignProcessToJobObject` (all initialised
to `None`) become the explicit `Caches` record; the OS and `sys.platform`
become the oracle record `Env`. Each detector also returns the number of times
it executed its probe branch, so "probes at most once" is statable.
-/

/-- The module global `linux_prctl`: `None` before the first probe, `False`
when resolution failed, or the resolved `prctl` function. -/
inductive PrctlCache where
  | unprobed
  | unsupported
  | supported
  deriving DecidableEq, Repr

/-- Python truthiness of the `linux_prctl` global (`bool(None)` and
`bool(False)` are `False`; a ctypes function object is truthy). -/
def PrctlCache.toBool : PrctlCache → Bool
  | .supported => true
  | _ => false

/-- The module global `win32_job`: `None` before the first probe, `False` when
the probe failed, or a configured job handle carrying the `LimitFlags` it was
configured with. -/
inductive Win32JobCache where
  | unprobed
  | unsupported
  | job (limitFlags : Nat)
  deriving DecidableEq, Repr

/-- Python truthiness of the `win32_job` global. -/
def Win32JobCache.toBool : Win32JobCache → Bool
  | .job _ => true
  | _ => false

/-- The module global `win32_AssignProcessToJobObject`: `None` before the
first probe, `False` when `kernel32` could not be loaded, or the bound
`AssignProcessToJobObject` function. -/
inductive AssignCache where
  | unprobed
  | unavailable
  | fn
  deriving DecidableEq, Repr

/-- The three module-level cache globals, all `None` at import time. -/
structure Caches where
  linux_prctl : PrctlCache
  win32_job : Win32JobCache
  win32_assign : AssignCache
  deriving DecidableEq, Repr

/-- Module state at import: `linux_prctl = None`, `win32_job = None`,
`win32_AssignProcessToJobObject = None`. -/
def Caches.init : Caches :=
  ⟨.unprobed, .unprobed, .unprobed⟩

/-- Python's `str.startswith(pre)`, implemented structurally on the character
list so that it evaluates inside the kernel. -/
def strStartsWith (s pre : String) : Bool :=
  pre.data.isPrefixOf s.data

/-- The OS / interpreter oracle: `sys.platform` plus the outcomes of every OS
call the probes and binders can make. -/
structure Env where
  platform : String
  /-- whether `CDLL(None).prctl` resolves and accepts the signature. -/
  prctl_resolvable : Bool
  /-- return value of `prctl(option, arg2, 0, 0, 0)`. -/
  prctl : Int → Int → Int
  /-- `ctypes.get_errno()` after a failed `prctl`. -/
  errno : Int
  /-- whether the `kernel32` ctypes setup succeeds. -/
  kernel32_loadable : Bool
  /-- whether `CreateJobObjectW(None, None)` returns a non-null handle. -/
  create_job_ok : Bool
  /-- `IsDebuggerPresent()`. -/
  debugger_present : Bool
  /-- whether `SetInformationJobObject` succeeds. -/
  set_info_ok : Bool
  /-- whether `AssignProcessToJobObject(win32_job, child)` succeeds. -/
  assign_ok : Bool
  /-- `ctypes.get_last_error()` after a failed assignment. -/
  last_error : Int

/-- `JOB_OBJECT_LIMIT_BREAKAWAY_OK`. -/
def JOB_OBJECT_LIMIT_BREAKAWAY_OK : Nat := 0x00000800

/-- `JOB_OBJECT_LIMIT_DIE_ON_UNHANDLED_EXCEPTION`. -/
def JOB_OBJECT_LIMIT_DIE_ON_UNHANDLED_EXCEPTION : Nat := 0x00000400

/-- `JOB_OBJECT_LIMIT_KILL_ON_JOB_CLOSE`. -/
def JOB_OBJECT_LIMIT_KILL_ON_JOB_CLOSE : Nat := 0x00002000

/-- `detect_fate_sharing_support_win32()`: probes only when `win32_job is
None` and the platform is win32; creates and configures a job object,
discarding it if configuration fails; records `AssignProcessToJobObject` when
`kernel32` loaded; returns `bool(win32_job)`. Last component counts probe
executions. -/
def detect_fate_sharing_support_win32 (env : Env) (jc : Win32JobCache)
    (ac : AssignCache) : Bool × Win32JobCache × AssignCache × Nat :=
  if jc = Win32JobCache.unprobed && env.platform = "win32" then
    let kernel32 := env.kernel32_loadable
    let job0 := kernel32 && env.create_job_ok
    let jobFinal : Option Nat :=
      if job0 then
        let debug := env.debugger_present
        let limitFlags :=
          (if debug then 0 else JOB_OBJECT_LIMIT_KILL_ON_JOB_CLOSE)
            ||| JOB_OBJECT_LIMIT_DIE_ON_UNHANDLED_EXCEPTION
            ||| JOB_OBJECT_LIMIT_BREAKAWAY_OK
        if env.set_info_ok then some limitFlags else none
      else none
    let ac' := if kernel32 then AssignCache.fn else AssignCache.unavailable
    let jc' := match jobFinal with
      | some fl => Win32JobCache.job fl
      | none => Win32JobCache.unsupported
    (jc'.toBool, jc', ac', 1)
  else
    (jc.toBool, jc, ac, 0)

/-- `detect_fate_sharing_support_linux()`: probes only when `linux_prctl is
None` and the platform starts with "linux"; resolution failure caches `False`;
returns `bool(linux_prctl)`. Last component counts probe executions. -/
def detect_fate_sharing_support_linux (env : Env) (c : PrctlCache) :
    Bool × PrctlCache × Nat :=
  if c = PrctlCache.unprobed && strStartsWith env.platform ("linux") then
    let c' := if env.prctl_resolvable then PrctlCache.supported
              else PrctlCache.unsupported
    (c'.toBool, c', 1)
  else
    (c.toBool, c, 0)

/-- `detect_fate_sharing_support()`: `result = None`, overwritten by the
platform probe on win32 / linux; returned as-is, so on any other platform the
function returns `None` (modelled by `none`), not a boolean. -/
def detect_fate_sharing_support (env : Env) (st : Caches) :
    Option Bool × Caches :=
  if env.platform = "win32" then
    let r := detect_fate_sharing_support_win32 env st.win32_job st.win32_assign
    (some r.1, { st with win32_job := r.2.1, win32_assign := r.2.2.1 })
  else if strStartsWith env.platform ("linux") then
    let r := detect_fate_sharing_support_linux env st.linux_prctl
    (some r.1, { st with linux_prctl := r.2.1 })
  else
    (none, st)

/-- Errors a bind function can raise. -/
inductive BindErr where
  /-- `OSError(code, msg)`. -/
  | osError (code : Int) (msg : String)
  /-- a failed `assert`. -/
  | assertionError (msg : String)
  deriving DecidableEq, Repr

/-- message of the `OSError` raised when `prctl` fails. -/
def prctlFailMsg : String := "prctl(PR_SET_PDEATHSIG) failed"

/-- message of the `assert False` in `set_kill_on_parent_death_linux`. -/
def prctlUnavailableMsg : String := "PR_SET_PDEATHSIG used despite being unavailable"

/-- message of the `OSError` raised when `AssignProcessToJobObject` fails. -/
def assignFailMsg : String := "AssignProcessToJobObject() failed"

/-- message of the `assert False` in `set_kill_child_on_death_win32`. -/
def assignUnavailableMsg : String := "AssignProcessToJobObject used despite being unavailable"

/-- `PR_SET_PDEATHSIG`. -/
def PR_SET_PDEATHSIG : Int := 1

/-- `signal.SIGKILL` on Linux. -/
def SIGKILL : Int := 9

/-- `set_kill_on_parent_death_linux()`: if the Linux probe reports support,
calls `linux_prctl(PR_SET_PDEATHSIG, signal.SIGKILL, 0, 0, 0)` and raises
`OSError(ctypes.get_errno(), ...)` on a nonzero return; otherwise
`assert False`. -/
def set_kill_on_parent_death_linux (env : Env) (c : PrctlCache) :
    PrctlCache × Except BindErr Unit :=
  let r := detect_fate_sharing_support_linux env c
  if r.1 then
    if env.prctl PR_SET_PDEATHSIG SIGKILL ≠ 0 then
      (r.2.1, .error (.osError env.errno prctlFailMsg))
    else (r.2.1, .ok ())
  else (r.2.1, .error (.assertionError prctlUnavailableMsg))

/-- The `child_proc` argument of `set_kill_child_on_death_win32`: a
`subprocess.Popen` (whose `_handle` is taken), a `subprocess.Handle`, or
anything else (which fails the `isinstance` assert). -/
inductive ChildProc where
  | popen (h : Int)
  | handle (h : Int)
  | other
  deriving DecidableEq, Repr

/-- `set_kill_child_on_death_win32(child_proc)`: converts a `Popen` to its
handle, asserts the result is a `subprocess.Handle`, then if the win32 probe
reports support calls `win32_AssignProcessToJobObject(win32_job,
int(child_proc))`, raising `OSError(ctypes.get_last_error(), ...)` on failure;
otherwise `assert False`. -/
def set_kill_child_on_death_win32 (env : Env) (st : Caches)
    (child : ChildProc) : Caches × Except BindErr Unit :=
  let ch : Option Int := match child with
    | .popen h => some h
    | .handle h => some h
    | .other => none
  match ch with
  | none => (st, .error (.assertionError "isinstance(child_proc, subprocess.Handle)"))
  | some _ =>
      let r := detect_fate_sharing_support_win32 env st.win32_job st.win32_assign
      let st1 := { st with win32_job := r.2.1, win32_assign := r.2.2.1 }
      if r.1 then
        if env.assign_ok then (st1, .ok ())
        else (st1, .error (.osError env.last_error assignFailMsg))
      else (st1, .error (.assertionError assignUnavailableMsg))

/-- `n` successive calls of `detect_fate_sharing_support_linux` from cache
`c`: the list of returned booleans, the final cache, and the total number of
probe executions. -/
def detect_fate_sharing_support_linuxN (env : Env) :
    Nat → PrctlCache → List Bool × PrctlCache × Nat
  | 0, c => ([], c, 0)
  | n + 1, c =>
      let r := detect_fate_sharing_support_linux env c
      let rest := detect_fate_sharing_support_linuxN env n r.2.1
      (r.1 :: rest.1, rest.2.1, r.2.2 + rest.2.2)

/-- `n` successive calls of `detect_fate_sharing_support_win32`. -/
def detect_fate_sharing_support_win32N (env : Env) :
    Nat → Win32JobCache → AssignCache → List Bool × Win32JobCache × AssignCache × Nat
  | 0, jc, ac => ([], jc, ac, 0)
  | n + 1, jc, ac =>
      let r := detect_fate_sharing_support_win32 env jc ac
      let rest := detect_fate_sharing_support_win32N env n r.2.1 r.2.2.1
      (r.1 :: rest.1, rest.2.1, rest.2.2.1, r.2.2.2 + rest.2.2.2)

/-!
Helper lemmas about guarded body runs.
-/

/-- While `signal.signal` is the guard's monkey patch, a main-thread body
cannot change the signal-dispatch state: SIGINT delivery only mutates the
guard, and any registration attempt raises before installing anything. -/
theorem runBody_monkeyPatch_state (g : DeferSigint α β) (s : SigState α β)
    (hs : s.signal_fn = RegFn.monkeyPatch) (body : List (BodyEvent α)) :
    (runBody true g s body).2.1 = s := by
  induction body generalizing g with
  | nil => rfl
  | cons ev rest ih =>
    cases ev with
    | sigint =>
        cases hh : s.sigint_handler with
        | deferH => simpa [runBody, deliverSigint, hh] using ih _
        | user a => simpa [runBody, deliverSigint, hh] using ih _
    | setHandler h => simp [runBody, hs, callRegFn]
    | raiseE e => rfl

/-- `task_cancelled`, once set, stays set for the rest of the body. -/
theorem runBody_flag_mono (m : Bool) (g : DeferSigint α β) (s : SigState α β)
    (body : List (BodyEvent α)) (hg : g.task_cancelled = true) :
    ((runBody m g s body).1).task_cancelled = true := by
  induction body generalizing g s with
  | nil => exact hg
  | cons ev rest ih =>
    cases ev with
    | sigint =>
        cases hh : s.sigint_handler with
        | deferH =>
            simpa [runBody, deliverSigint, hh] using
              ih (g.set_task_cancelled) s rfl
        | user a => simpa [runBody, deliverSigint, hh] using ih g s hg
    | setHandler h =>
        cases hc : callRegFn m s.signal_fn s h with
        | error e => simpa [runBody, hc] using hg
        | ok s' => simpa [runBody, hc] using ih g s' hg
    | raiseE e => simpa [runBody] using hg

/-- A body does not touch the guard's saved originals. -/
theorem runBody_orig_pres (m : Bool) (g : DeferSigint α β) (s : SigState α β)
    (body : List (BodyEvent α)) :
    ((runBody m g s body).1).orig_sigint_handler = g.orig_sigint_handler ∧
      ((runBody m g s body).1).orig_signal = g.orig_signal := by
  induction body generalizing g s with
  | nil => exact ⟨rfl, rfl⟩
  | cons ev rest ih =>
    cases ev with
    | sigint =>
        cases hh : s.sigint_handler with
        | deferH =>
            simpa [runBody, deliverSigint, hh, DeferSigint.set_task_cancelled]
              using ih (g.set_task_cancelled) s
        | user a => simpa [runBody, deliverSigint, hh] using ih g s
    | setHandler h =>
        cases hc : callRegFn m s.signal_fn s h with
        | error e => simp [runBody, hc]
        | ok s' => simpa [runBody, hc] using ih g s'
    | raiseE e => exact ⟨rfl, rfl⟩

/-- If the deferring handler is installed and the monkey patch is active, a
main-thread body that completes without raising and contains a SIGINT delivery
leaves `task_cancelled` set. -/
theorem runBody_flag_set (g : DeferSigint α β) (s : SigState α β)
    (hh : s.sigint_handler = Handler.deferH)
    (hs : s.signal_fn = RegFn.monkeyPatch) (body : List (BodyEvent α))
    (hc : (runBody true g s body).2.2 = none)
    (hmem : BodyEvent.sigint ∈ body) :
    ((runBody true g s body).1).task_cancelled = true := by
  induction body generalizing g with
  | nil => cases hmem
  | cons ev rest ih =>
    cases ev with
    | sigint =>
        have : (runBody true g s (BodyEvent.sigint :: rest)).1
            = (runBody true (g.set_task_cancelled) s rest).1 := by
          simp [runBody, deliverSigint, hh]
        rw [this]
        exact runBody_flag_mono true _ s rest rfl
    | setHandler h =>
        exfalso
        have : (runBody true g s (BodyEvent.setHandler h :: rest)).2.2
            = some PyExc.valueError := by
          simp [runBody, hs, callRegFn]
        rw [this] at hc
        cases hc
    | raiseE e =>
        exfalso
        have : (runBody true g s (BodyEvent.raiseE e :: rest)).2.2 = some e := by
          simp [runBody]
        rw [this] at hc
        cases hc

/-- If no SIGINT is delivered to the deferring handler, the flag stays clear:
in particular a body without any `sigint` event leaves `task_cancelled` as it
started. -/
theorem runBody_flag_clear (m : Bool) (g : DeferSigint α β) (s : SigState α β)
    (body : List (BodyEvent α)) (hg : g.task_cancelled = false)
    (hmem : BodyEvent.sigint ∉ body) :
    ((runBody m g s body).1).task_cancelled = false := by
  induction body generalizing g s with
  | nil => exact hg
  | cons ev rest ih =>
    cases ev with
    | sigint => exact absurd (List.mem_cons_self _ _) hmem
    | setHandler h =>
        have hrest : BodyEvent.sigint ∉ rest := fun hr =>
          hmem (List.mem_cons_of_mem _ hr)
        cases hc : callRegFn m s.signal_fn s h with
        | error e => simpa [runBody, hc] using hg
        | ok s' => simpa [runBody, hc] using ih g s' hg hrest
    | raiseE e => simpa [runBody] using hg

/-- The guard machinery never raises `KeyboardInterrupt` during the body: if
the body phase ends with `KeyboardInterrupt`, the body itself raised it. -/
theorem runBody_no_ki (m : Bool) (g : DeferSigint α β) (s : SigState α β)
    (body : List (BodyEvent α))
    (hk : (runBody m g s body).2.2 = some PyExc.keyboardInterrupt) :
    BodyEvent.raiseE PyExc.keyboardInterrupt ∈ body := by
  induction body generalizing g s with
  | nil => cases hk
  | cons ev rest ih =>
    cases ev with
    | sigint =>
        cases hh : s.sigint_handler with
        | deferH =>
            rw [show (runBody m g s (BodyEvent.sigint :: rest))
                = runBody m (g.set_task_cancelled) s rest by
              simp [runBody, deliverSigint, hh]] at hk
            exact List.mem_cons_of_mem _ (ih _ _ hk)
        | user a =>
            rw [show (runBody m g s (BodyEvent.sigint :: rest))
                = runBody m g s rest by
              simp [runBody, deliverSigint, hh]] at hk
            exact List.mem_cons_of_mem _ (ih _ _ hk)
    | setHandler h =>
        cases hfn : s.signal_fn with
        | base fb =>
            by_cases hm : m = true
        
            · rw [show (runBody m g s (BodyEvent.setHandler h :: rest))
                  = runBody m g { s with sigint_handler := h } rest by
                simp [runBody, hfn, callRegFn, hm]] at hk
              exact List.mem_cons_of_mem _ (ih _ _ hk)
            · have hm' : m = false := by
                cases m
                · rfl
                · exact absurd rfl hm
              rw [show (runBody m g s (BodyEvent.setHandler h :: rest)).2.2
                  = some PyExc.valueError by
                simp [runBody, hfn, callRegFn, hm']] at hk
              cases hk
        | monkeyPatch =>
            rw [show (runBody m g s (BodyEvent.setHandler h :: rest)).2.2
                = some PyExc.valueError by
              simp [runBody, hfn, callRegFn]] at hk
            cases hk
    | raiseE e =>
        have : (runBody m g s (BodyEvent.raiseE e :: rest)).2.2 = some e := by
          simp [runBody]
        rw [this] at hk
        cases hk
        exact List.mem_cons_self _ _

/-- If a whole body completes without raising, so does every prefix of it: at
no intermediate point of the body had any exception been raised. -/
theorem runBody_prefix_none (m : Bool) (g : DeferSigint α β) (s : SigState α β)
    (pre suf : List (BodyEvent α))
    (hc : (runBody m g s (pre ++ suf)).2.2 = none) :
    (runBody m g s pre).2.2 = none := by
  induction pre generalizing g s with
  | nil => rfl
  | cons ev rest ih =>
    cases ev with
    | sigint =>
        cases hh : s.sigint_handler with
        | deferH =>
            rw [show runBody m g s (BodyEvent.sigint :: rest)
                = runBody m (g.set_task_cancelled) s rest by
              simp [runBody, deliverSigint, hh]]
            rw [show runBody m g s ((BodyEvent.sigint :: rest) ++ suf)
                = runBody m (g.set_task_cancelled) s (rest ++ suf) by
              simp [runBody, deliverSigint, hh]] at hc
            exact ih _ s hc
        | user a =>
            rw [show runBody m g s (BodyEvent.sigint :: rest)
                = runBody m g s rest by
              simp [runBody, deliverSigint, hh]]
            rw [show runBody m g s ((BodyEvent.sigint :: rest) ++ suf)
                = runBody m g s (rest ++ suf) by
              simp [runBody, deliverSigint, hh]] at hc
            exact ih g s hc
    | setHandler h =>
        cases hr : callRegFn m s.signal_fn s h with
        | error e =>
            rw [show runBody m g s ((BodyEvent.setHandler h :: rest) ++ suf)
                = (g, s, some e) by simp [runBody, hr]] at hc
            cases hc
        | ok s' =>
            rw [show runBody m g s (BodyEvent.setHandler h :: rest)
                = runBody m g s' rest by simp [runBody, hr]]
            rw [show runBody m g s ((BodyEvent.setHandler h :: rest) ++ suf)
                = runBody m g s' (rest ++ suf) by simp [runBody, hr]] at hc
            exact ih g s' hc
    | raiseE e =>
        rw [show runBody m g s ((BodyEvent.raiseE e :: rest) ++ suf)
            = (g, s, some e) by simp [runBody]] at hc
        cases hc

/-- Off the main thread no registration can succeed, so a body cannot change
the signal-dispatch state. -/
theorem runBody_nonmain_state (g : DeferSigint α β) (s : SigState α β)
    (body : List (BodyEvent α)) :
    (runBody false g s body).2.1 = s := by
  induction body generalizing g with
  | nil => rfl
  | cons ev rest ih =>
    cases ev with
    | sigint =>
        cases hh : s.sigint_handler with
        | deferH => simpa [runBody, deliverSigint, hh] using ih _
        | user a => simpa [runBody, deliverSigint, hh] using ih _
    | setHandler h =>
        cases hfn : s.signal_fn with
        | base fb => simp [runBody, hfn, callRegFn]
        | monkeyPatch => simp [runBody, hfn, callRegFn]
    | raiseE e => rfl

/-- A body consisting only of SIGINT deliveries raises nothing. -/
theorem runBody_sigint_only_none (m : Bool) (g : DeferSigint α β)
    (s : SigState α β) (body : List (BodyEvent α))
    (hb : ∀ e ∈ body, e = BodyEvent.sigint) :
    (runBody m g s body).2.2 = none := by
  induction body generalizing g s with
  | nil => rfl
  | cons ev rest ih =>
    have hev : ev = BodyEvent.sigint := hb ev (List.mem_cons_self _ _)
    subst hev
    have hrest : ∀ e ∈ rest, e = BodyEvent.sigint := fun e he =>
      hb e (List.mem_cons_of_mem _ he)
    cases hh : s.sigint_handler with
    | deferH => simpa [runBody, deliverSigint, hh] using ih _ s hrest
    | user a => simpa [runBody, deliverSigint, hh] using ih g s hrest

/-- With the guard installed, a main-thread body made of SIGINT deliveries
followed by a registration attempt stops at the attempt with `ValueError`. -/
theorem runBody_sigint_then_set (g : DeferSigint α β) (s : SigState α β)
    (hs : s.signal_fn = RegFn.monkeyPatch) (pre : List (BodyEvent α))
    (hpre : ∀ e ∈ pre, e = BodyEvent.sigint) (h : Handler α)
    (rest : List (BodyEvent α)) :
    (runBody true g s (pre ++ BodyEvent.setHandler h :: rest)).2.2
      = some PyExc.valueError := by
  induction pre generalizing g with
  | nil => simp [runBody, hs, callRegFn]
  | cons ev pre' ih =>
    have hev : ev = BodyEvent.sigint := hpre ev (List.mem_cons_self _ _)
    subst hev
    have hpre' : ∀ e ∈ pre', e = BodyEvent.sigint := fun e he =>
      hpre e (List.mem_cons_of_mem _ he)
    cases hh : s.sigint_handler with
    | deferH => simpa [runBody, deliverSigint, hh] using ih _ hpre'
    | user a => simpa [runBody, deliverSigint, hh] using ih g hpre'

/-- A main-thread guarded run is `__enter__`, the body phase, `__exit__`. -/
theorem runWithGuard_eq (H : Handler α) (f : β) (body : List (BodyEvent α)) :
    runWithGuard ⟨H, RegFn.base f⟩ body =
      DeferSigint.exitCtx (guardedBodyRun H f body).1
        (guardedBodyRun H f body).2.1 (guardedBodyRun H f body).2.2 :=
  rfl

/-- When the body phase of a guarded run raises nothing, `__exit__` restores
`signal.signal` and then the saved handler, and raises `KeyboardInterrupt`
exactly when `task_cancelled` was set. -/
theorem runWithGuard_none (H : Handler α) (f : β) (body : List (BodyEvent α))
    (hc : (guardedBodyRun H f body).2.2 = none) :
    runWithGuard ⟨H, RegFn.base f⟩ body =
      ⟨⟨H, RegFn.base f⟩,
       if (guardedBodyRun H f body).1.task_cancelled then
         some PyExc.keyboardInterrupt
       else none,
       [RestoreStep.restoredSignalFn (RegFn.base f),
        RestoreStep.restoredHandler H]⟩ := by
  have hst : (guardedBodyRun H f body).2.1
      = ⟨Handler.deferH, RegFn.monkeyPatch⟩ :=
    runBody_monkeyPatch_state _ _ rfl body
  have hor : (guardedBodyRun H f body).1.orig_sigint_handler = some H ∧
      (guardedBodyRun H f body).1.orig_signal = some (RegFn.base f) :=
    runBody_orig_pres true _ _ body
  rw [runWithGuard_eq]
  unfold DeferSigint.exitCtx
  rw [hor.1, hor.2, hst, hc]
  simp only [callRegFn, if_true]
  split <;> rfl

/-- When the body phase of a guarded run raises `e`, `__exit__` restores
`signal.signal` and then the saved handler and lets `e` keep propagating. -/
theorem runWithGuard_exc (H : Handler α) (f : β) (body : List (BodyEvent α))
    (e : PyExc) (hb : (guardedBodyRun H f body).2.2 = some e) :
    runWithGuard ⟨H, RegFn.base f⟩ body =
      ⟨⟨H, RegFn.base f⟩, some e,
       [RestoreStep.restoredSignalFn (RegFn.base f),
        RestoreStep.restoredHandler H]⟩ := by
  have hst : (guardedBodyRun H f body).2.1
      = ⟨Handler.deferH, RegFn.monkeyPatch⟩ :=
    runBody_monkeyPatch_state _ _ rfl body
  have hor : (guardedBodyRun H f body).1.orig_sigint_handler = some H ∧
      (guardedBodyRun H f body).1.orig_signal = some (RegFn.base f) :=
    runBody_orig_pres true _ _ body
  rw [runWithGuard_eq]
  unfold DeferSigint.exitCtx
  rw [hor.1, hor.2, hst, hb]
  simp [callRegFn]

/-- C1: for every guarded body that completes without raising, if SIGINT was
delivered at least once during the active scope, the guard raises
`KeyboardInterrupt` exactly once, at `__exit__` after the body has completed
and the original dispatch state is restored — and never during the body: at
the end of every prefix of the body no exception had been raised. -/
theorem deferSigint_deferred_delivery (H : Handler α) (f : β)
    (body : List (BodyEvent α))
    (hc : (guardedBodyRun H f body).2.2 = none)
    (hs : BodyEvent.sigint ∈ body) :
    runWithGuard ⟨H, RegFn.base f⟩ body =
      ⟨⟨H, RegFn.base f⟩, some PyExc.keyboardInterrupt,
       [RestoreStep.restoredSignalFn (RegFn.base f),
        RestoreStep.restoredHandler H]⟩ ∧
    ∀ pre suf, body = pre ++ suf → (guardedBodyRun H f pre).2.2 = none := by
  have hfl : (guardedBodyRun H f body).1.task_cancelled = true :=
    runBody_flag_set _ _ rfl rfl body hc hs
  refine ⟨?_, ?_⟩
  · rw [runWithGuard_none H f body hc]
    simp [hfl]
  · intro pre suf he
    subst he
    exact runBody_prefix_none true _ _ pre suf hc

/-- Witness for C1 at a concrete run: one SIGINT delivered during a body that
completes normally yields exactly one `KeyboardInterrupt`, at exit. -/
theorem deferSigint_deferred_delivery_witness :
    runWithGuard (⟨Handler.user 0, RegFn.base 0⟩ : SigState Nat Nat)
        [BodyEvent.sigint] =
      ⟨⟨Handler.user 0, RegFn.base 0⟩, some PyExc.keyboardInterrupt,
       [RestoreStep.restoredSignalFn (RegFn.base 0),
        RestoreStep.restoredHandler (Handler.user 0)]⟩ :=
  (deferSigint_deferred_delivery (Handler.user 0) 0 [BodyEvent.sigint]
    (by decide) (by decide)).1

/-- C2: if the guarded body raises any failure, that failure propagates out of
the guard unchanged after restoration, and `KeyboardInterrupt` is not
additionally raised — the pending flag is not consulted on the exceptional
path, no matter whether SIGINT arrived during the scope. -/
theorem deferSigint_exception_precedence (H : Handler α) (f : β)
    (body : List (BodyEvent α)) (e : PyExc)
    (hb : (guardedBodyRun H f body).2.2 = some e) :
    runWithGuard ⟨H, RegFn.base f⟩ body =
      ⟨⟨H, RegFn.base f⟩, some e,
       [RestoreStep.restoredSignalFn (RegFn.base f),
        RestoreStep.restoredHandler H]⟩ :=
  runWithGuard_exc H f body e hb

/-- Witness for C2 at a concrete run: the body raises a user exception after a
SIGINT arrived; exactly that exception propagates, not `KeyboardInterrupt`. -/
theorem deferSigint_exception_precedence_witness :
    runWithGuard (⟨Handler.user 0, RegFn.base 0⟩ : SigState Nat Nat)
        [BodyEvent.sigint, BodyEvent.raiseE (PyExc.userExc 3)] =
      ⟨⟨Handler.user 0, RegFn.base 0⟩, some (PyExc.userExc 3),
       [RestoreStep.restoredSignalFn (RegFn.base 0),
        RestoreStep.restoredHandler (Handler.user 0)]⟩ :=
  deferSigint_exception_precedence (Handler.user 0) 0
    [BodyEvent.sigint, BodyEvent.raiseE (PyExc.userExc 3)]
    (PyExc.userExc 3) (by decide)

/-- C3: entering and exiting a guard with no SIGINT delivered restores the
active SIGINT handler to exactly the pre-existing `H` and the `signal.signal`
binding to exactly the pre-existing `f`, raising nothing; the restoration
trace records the registration entry point being restored before the
handler. -/
theorem deferSigint_restores_original_state (H : Handler α) (f : β)
    (body : List (BodyEvent α)) (hnosig : BodyEvent.sigint ∉ body)
    (hc : (guardedBodyRun H f body).2.2 = none) :
    runWithGuard ⟨H, RegFn.base f⟩ body =
      ⟨⟨H, RegFn.base f⟩, none,
       [RestoreStep.restoredSignalFn (RegFn.base f),
        RestoreStep.restoredHandler H]⟩ := by
  have hfl : (guardedBodyRun H f body).1.task_cancelled = false :=
    runBody_flag_clear true _ _ body rfl hnosig
  rw [runWithGuard_none H f body hc]
  simp [hfl]

/-- Witness for C3 at a concrete run with an empty body. -/
theorem deferSigint_restores_original_state_witness :
    runWithGuard (⟨Handler.user 7, RegFn.base 5⟩ : SigState Nat Nat) [] =
      ⟨⟨Handler.user 7, RegFn.base 5⟩, none,
       [RestoreStep.restoredSignalFn (RegFn.base 5),
        RestoreStep.restoredHandler (Handler.user 7)]⟩ :=
  deferSigint_restores_original_state (Handler.user 7) 5 []
    (by decide) (by decide)

/-- C4: while a guard is active on the main thread, any attempt to register a
SIGINT handler raises `ValueError` synchronously at the point of the attempt
(the monkey patch errors before touching the state and the rest of the body
never runs), and the guard's restoration on exit still succeeds. -/
theorem deferSigint_nesting_rejection (H : Handler α) (f : β)
    (h : Handler α) (pre rest : List (BodyEvent α))
    (hpre : ∀ e ∈ pre, e = BodyEvent.sigint) :
    (∀ s : SigState α β, callRegFn true RegFn.monkeyPatch s h
        = Except.error PyExc.valueError) ∧
    runWithGuard ⟨H, RegFn.base f⟩ (pre ++ BodyEvent.setHandler h :: rest) =
      ⟨⟨H, RegFn.base f⟩, some PyExc.valueError,
       [RestoreStep.restoredSignalFn (RegFn.base f),
        RestoreStep.restoredHandler H]⟩ := by
  refine ⟨fun s => rfl, ?_⟩
  have hb : (guardedBodyRun H f (pre ++ BodyEvent.setHandler h :: rest)).2.2
      = some PyExc.valueError :=
    runBody_sigint_then_set _ _ rfl pre hpre h rest
  exact runWithGuard_exc H f _ _ hb

/-- Witness for C4 at a concrete run: a registration attempt after one SIGINT
raises `ValueError`; the events after the attempt never run and restoration
succeeds. -/
theorem deferSigint_nesting_rejection_witness :
    runWithGuard (⟨Handler.user 0, RegFn.base 0⟩ : SigState Nat Nat)
        ([BodyEvent.sigint] ++ BodyEvent.setHandler (Handler.user 1)
          :: [BodyEvent.raiseE (PyExc.userExc 5)]) =
      ⟨⟨Handler.user 0, RegFn.base 0⟩, some PyExc.valueError,
       [RestoreStep.restoredSignalFn (RegFn.base 0),
        RestoreStep.restoredHandler (Handler.user 0)]⟩ :=
  (deferSigint_nesting_rejection (Handler.user 0) 0 (Handler.user 1)
    [BodyEvent.sigint] [BodyEvent.raiseE (PyExc.userExc 5)] (by decide)).2

/-- C9: used from a non-main thread, `create_if_main_thread` yields a no-op
pass-through: the signal-dispatch state is untouched, no restoration is
performed, the body's own outcome is returned unchanged, and no
`KeyboardInterrupt` is raised unless the body itself raised one. -/
theorem deferSigint_nonmain_passthrough (s : SigState α β)
    (body : List (BodyEvent α))
    (hki : BodyEvent.raiseE PyExc.keyboardInterrupt ∉ body) :
    (runDeferSigintGuard false s body).state = s ∧
    (runDeferSigintGuard false s body).restoreTrace = [] ∧
    (runDeferSigintGuard false s body).exc
      = (runBody false (DeferSigint.init α β) s body).2.2 ∧
    (runDeferSigintGuard false s body).exc ≠ some PyExc.keyboardInterrupt := by
  refine ⟨runBody_nonmain_state _ s body, rfl, rfl, ?_⟩
  intro hk
  exact hki (runBody_no_ki false _ s body hk)

/-- Witness for C9 at a concrete run on a non-main thread. -/
theorem deferSigint_nonmain_passthrough_witness :
    (runDeferSigintGuard false
        (⟨Handler.user 0, RegFn.base 0⟩ : SigState Nat Nat)
        [BodyEvent.sigint]).state = ⟨Handler.user 0, RegFn.base 0⟩ :=
  (deferSigint_nonmain_passthrough (⟨Handler.user 0, RegFn.base 0⟩ :
    SigState Nat Nat) [BodyEvent.sigint] (by decide)).1

/-- C10: if SIGINT is delivered `n ≥ 1` times during a single active scope,
the guard still raises `KeyboardInterrupt` exactly once at exit, with an
outcome independent of `n`; the internal handler only sets the boolean flag
and is idempotent. -/
theorem deferSigint_signal_idempotent (H : Handler α) (f : β) (n : Nat)
    (hn : 1 ≤ n) :
    runWithGuard ⟨H, RegFn.base f⟩ (List.replicate n BodyEvent.sigint) =
      ⟨⟨H, RegFn.base f⟩, some PyExc.keyboardInterrupt,
       [RestoreStep.restoredSignalFn (RegFn.base f),
        RestoreStep.restoredHandler H]⟩ ∧
    ∀ g : DeferSigint α β,
      g.set_task_cancelled.set_task_cancelled = g.set_task_cancelled := by
  have hall : ∀ e ∈ List.replicate n (BodyEvent.sigint : BodyEvent α),
      e = BodyEvent.sigint :=
    fun e he => List.eq_of_mem_replicate he
  have hc : (guardedBodyRun H f (List.replicate n BodyEvent.sigint)).2.2
      = none :=
    runBody_sigint_only_none true _ _ _ hall
  have hmem : (BodyEvent.sigint : BodyEvent α)
      ∈ List.replicate n BodyEvent.sigint := by
    refine List.mem_replicate.2 ⟨?_, rfl⟩
    omega
  have hfl : (guardedBodyRun H f
      (List.replicate n BodyEvent.sigint)).1.task_cancelled = true :=
    runBody_flag_set _ _ rfl rfl _ hc hmem
  refine ⟨?_, fun g => rfl⟩
  rw [runWithGuard_none H f _ hc]
  simp [hfl]

/-- Witness for C10 at a concrete run with two SIGINT deliveries. -/
theorem deferSigint_signal_idempotent_witness :
    runWithGuard (⟨Handler.user 0, RegFn.base 0⟩ : SigState Nat Nat)
        (List.replicate 2 BodyEvent.sigint) =
      ⟨⟨Handler.user 0, RegFn.base 0⟩, some PyExc.keyboardInterrupt,
       [RestoreStep.restoredSignalFn (RegFn.base 0),
        RestoreStep.restoredHandler (Handler.user 0)]⟩ :=
  (deferSigint_signal_idempotent (Handler.user 0) 0 2 (by omega)).1

/-!
Helper lemmas about the memoized capability probes.
-/

/-- Once `linux_prctl` is written, a call returns the cached truthiness,
leaves the cache unchanged and performs no probe. -/
theorem detect_linux_stable (env : Env) (c : PrctlCache)
    (hc : c ≠ PrctlCache.unprobed) :
    detect_fate_sharing_support_linux env c = (c.toBool, c, 0) := by
  unfold detect_fate_sharing_support_linux
  simp [hc]

/-- Once `win32_job` is written, a call returns the cached truthiness, leaves
both caches unchanged and performs no probe. -/
theorem detect_win32_stable (env : Env) (jc : Win32JobCache) (ac : AssignCache)
    (hc : jc ≠ Win32JobCache.unprobed) :
    detect_fate_sharing_support_win32 env jc ac = (jc.toBool, jc, ac, 0) := by
  unfold detect_fate_sharing_support_win32
  simp [hc]

/-- Iterating from a fixed point of the Linux probe replicates its result. -/
theorem detectLinuxN_fixed (env : Env) (c : PrctlCache) (b : Bool)
    (hfix : detect_fate_sharing_support_linux env c = (b, c, 0))
    (n : Nat) :
    detect_fate_sharing_support_linuxN env n c
      = (List.replicate n b, c, 0) := by
  induction n with
  | zero => rfl
  | succ m ih =>
      simp [detect_fate_sharing_support_linuxN, hfix, ih, List.replicate_succ]

/-- Iterating from a fixed point of the win32 probe replicates its result. -/
theorem detectWin32N_fixed (env : Env) (jc : Win32JobCache) (ac : AssignCache)
    (b : Bool)
    (hfix : detect_fate_sharing_support_win32 env jc ac = (b, jc, ac, 0))
    (n : Nat) :
    detect_fate_sharing_support_win32N env n jc ac
      = (List.replicate n b, jc, ac, 0) := by
  induction n with
  | zero => rfl
  | succ m ih =>
      simp [detect_fate_sharing_support_win32N, hfix, ih, List.replicate_succ]

/-- A second call of the Linux probe returns the first call's boolean, leaves
the cache where the first call put it, and performs no OS probe. -/
theorem detect_linux_second (env : Env) :
    detect_fate_sharing_support_linux env
        (detect_fate_sharing_support_linux env PrctlCache.unprobed).2.1
      = ((detect_fate_sharing_support_linux env PrctlCache.unprobed).1,
         (detect_fate_sharing_support_linux env PrctlCache.unprobed).2.1,
         0) := by
  by_cases hp : strStartsWith env.platform ("linux") <;>
    cases hr : env.prctl_resolvable <;>
      simp [detect_fate_sharing_support_linux, hp, hr, PrctlCache.toBool]

/-- A second call of the win32 probe returns the first call's boolean, leaves
both caches where the first call put them, and performs no OS probe. -/
theorem detect_win32_second (env : Env) :
    detect_fate_sharing_support_win32 env
        (detect_fate_sharing_support_win32 env Win32JobCache.unprobed
            AssignCache.unprobed).2.1
        (detect_fate_sharing_support_win32 env Win32JobCache.unprobed
            AssignCache.unprobed).2.2.1
      = ((detect_fate_sharing_support_win32 env Win32JobCache.unprobed
            AssignCache.unprobed).1,
         (detect_fate_sharing_support_win32 env Win32JobCache.unprobed
            AssignCache.unprobed).2.1,
         (detect_fate_sharing_support_win32 env Win32JobCache.unprobed
            AssignCache.unprobed).2.2.1,
         0) := by
  by_cases hp : env.platform = "win32" <;>
    cases hk : env.kernel32_loadable <;>
      cases hcj : env.create_job_ok <;>
        cases hsi : env.set_info_ok <;>
          cases hdb : env.debugger_present <;>
            simp [detect_fate_sharing_support_win32, hp, hk, hcj, hsi, hdb,
                  Win32JobCache.toBool]

/-- Any single Linux-probe call performs the OS probe at most once. -/
theorem detect_linux_probes_le_one (env : Env) (c : PrctlCache) :
    (detect_fate_sharing_support_linux env c).2.2 ≤ 1 := by
  unfold detect_fate_sharing_support_linux
  split <;> simp

/-- Any single win32-probe call performs the OS probe at most once. -/
theorem detect_win32_probes_le_one (env : Env) (jc : Win32JobCache)
    (ac : AssignCache) :
    (detect_fate_sharing_support_win32 env jc ac).2.2.2 ≤ 1 := by
  unfold detect_fate_sharing_support_win32
  split <;> simp

/-- From the import-time cache, `m + 1` Linux-probe calls return the first
call's boolean every time, end in the cache the first call wrote, and perform
exactly the first call's probes. -/
theorem detectLinuxN_from_unprobed (env : Env) (m : Nat) :
    detect_fate_sharing_support_linuxN env (m + 1) PrctlCache.unprobed
      = (List.replicate (m + 1)
           (detect_fate_sharing_support_linux env PrctlCache.unprobed).1,
         (detect_fate_sharing_support_linux env PrctlCache.unprobed).2.1,
         (detect_fate_sharing_support_linux env PrctlCache.unprobed).2.2) := by
  have hN := detectLinuxN_fixed env _ _ (detect_linux_second env) m
  simp [detect_fate_sharing_support_linuxN, hN, List.replicate_succ]

/-- From the import-time caches, `m + 1` win32-probe calls return the first
call's boolean every time, end in the caches the first call wrote, and perform
exactly the first call's probes. -/
theorem detectWin32N_from_unprobed (env : Env) (m : Nat) :
    detect_fate_sharing_support_win32N env (m + 1) Win32JobCache.unprobed
        AssignCache.unprobed
      = (List.replicate (m + 1)
           (detect_fate_sharing_support_win32 env Win32JobCache.unprobed
              AssignCache.unprobed).1,
         (detect_fate_sharing_support_win32 env Win32JobCache.unprobed
            AssignCache.unprobed).2.1,
         (detect_fate_sharing_support_win32 env Win32JobCache.unprobed
            AssignCache.unprobed).2.2.1,
         (detect_fate_sharing_support_win32 env Win32JobCache.unprobed
            AssignCache.unprobed).2.2.2) := by
  have hN := detectWin32N_fixed env _ _ _ (detect_win32_second env) m
  simp [detect_fate_sharing_support_win32N, hN, List.replicate_succ]

/-- C5: for every `n ≥ 1`, calling a capability probe `n` times returns the
same boolean on every call and performs the underlying OS probe at most once;
the cache moves from `None` to a written value at most once (a probed cache is
a fixed point with zero further probes), for both the Linux and the win32
detector. -/
theorem capability_probe_memoized (env : Env) (n : Nat) (hn : 1 ≤ n) :
    ((detect_fate_sharing_support_linuxN env n PrctlCache.unprobed).1
       = List.replicate n
           (detect_fate_sharing_support_linux env PrctlCache.unprobed).1 ∧
     (detect_fate_sharing_support_linuxN env n PrctlCache.unprobed).2.2 ≤ 1 ∧
     ∀ c : PrctlCache, c ≠ PrctlCache.unprobed →
       detect_fate_sharing_support_linux env c = (c.toBool, c, 0)) ∧
    ((detect_fate_sharing_support_win32N env n Win32JobCache.unprobed
         AssignCache.unprobed).1
       = List.replicate n
           (detect_fate_sharing_support_win32 env Win32JobCache.unprobed
              AssignCache.unprobed).1 ∧
     (detect_fate_sharing_support_win32N env n Win32JobCache.unprobed
         AssignCache.unprobed).2.2.2 ≤ 1 ∧
     ∀ (jc : Win32JobCache) (ac : AssignCache), jc ≠ Win32JobCache.unprobed →
       detect_fate_sharing_support_win32 env jc ac = (jc.toBool, jc, ac, 0)) := by
  obtain ⟨m, rfl⟩ : ∃ m, n = m + 1 := ⟨n - 1, by omega⟩
  refine ⟨⟨?_, ?_, fun c hc => detect_linux_stable env c hc⟩,
          ⟨?_, ?_, fun jc ac hc => detect_win32_stable env jc ac hc⟩⟩
  · rw [detectLinuxN_from_unprobed]
  · rw [detectLinuxN_from_unprobed]
    exact detect_linux_probes_le_one env PrctlCache.unprobed
  · rw [detectWin32N_from_unprobed]
  · rw [detectWin32N_from_unprobed]
    exact detect_win32_probes_le_one env Win32JobCache.unprobed
      AssignCache.unprobed

/-- A concrete environment on a platform that is neither win32 nor Linux. -/
def envDarwin : Env :=
  { platform := "darwin", prctl_resolvable := false, prctl := fun _ _ => 0,
    errno := 0, kernel32_loadable := false, create_job_ok := false,
    debugger_present := false, set_info_ok := false, assign_ok := false,
    last_error := 0 }

/-- A concrete Linux environment where `prctl` resolves but fails at call
time with a nonzero return and `errno = 7`. -/
def envLinuxFail : Env :=
  { platform := "linux", prctl_resolvable := true, prctl := fun _ _ => 1,
    errno := 7, kernel32_loadable := false, create_job_ok := false,
    debugger_present := false, set_info_ok := false, assign_ok := false,
    last_error := 0 }

/-- A concrete win32 environment where the job object is created and
configured but `AssignProcessToJobObject` fails with last error `5`. -/
def envWin32Fail : Env :=
  { platform := "win32", prctl_resolvable := false, prctl := fun _ _ => 0,
    errno := 0, kernel32_loadable := true, create_job_ok := true,
    debugger_present := false, set_info_ok := true, assign_ok := false,
    last_error := 5 }

/-- Witness for C5 at a concrete input: three calls on the failing-Linux
environment return the same boolean three times. -/
theorem capability_probe_memoized_witness :
    (detect_fate_sharing_support_linuxN envLinuxFail 3 PrctlCache.unprobed).1
      = List.replicate 3
          (detect_fate_sharing_support_linux envLinuxFail
             PrctlCache.unprobed).1 :=
  ((capability_probe_memoized envLinuxFail 3 (by omega)).1).1

/-- C6 counterexample: on a platform that is neither win32 nor Linux,
`detect_fate_sharing_support()` does not return a boolean at all — it returns
`None` (falsy, but not the boolean `False` the claim asserts). -/
theorem detect_fate_sharing_support_none_cex :
    (detect_fate_sharing_support envDarwin Caches.init).1 = none ∧
    ¬ ∃ b : Bool, (detect_fate_sharing_support envDarwin Caches.init).1
        = some b := by
  constructor
  · rfl
  · intro hb
    obtain ⟨b, hb⟩ := hb
    cases hb

/-- C6 amended: `detect_fate_sharing_support()` returns `some` boolean on
win32 and Linux — the boolean mirroring the truthiness of the cache the
platform probe wrote — and returns `None` (leaving the caches untouched) on
every other platform. -/
theorem detect_fate_sharing_support_amended (env : Env) (st : Caches) :
    (env.platform = "win32" →
      (detect_fate_sharing_support env st).1
        = some ((detect_fate_sharing_support env st).2.win32_job.toBool)) ∧
    (env.platform ≠ "win32" → strStartsWith env.platform ("linux") →
      (detect_fate_sharing_support env st).1
        = some ((detect_fate_sharing_support env st).2.linux_prctl.toBool)) ∧
    (env.platform ≠ "win32" → ¬ strStartsWith env.platform ("linux") →
      (detect_fate_sharing_support env st).1 = none ∧
      (detect_fate_sharing_support env st).2 = st) := by
  refine ⟨fun hw => ?_, fun hw hl => ?_, fun hw hl => ?_⟩
  · unfold detect_fate_sharing_support
    rw [if_pos hw]
    unfold detect_fate_sharing_support_win32
    split <;> rfl
  · unfold detect_fate_sharing_support
    rw [if_neg hw, if_pos hl]
    unfold detect_fate_sharing_support_linux
    split <;> rfl
  · unfold detect_fate_sharing_support
    rw [if_neg hw, if_neg hl]
    exact ⟨rfl, rfl⟩

/-- Witness for the amended C6 at concrete inputs on all three platform
kinds. -/
theorem detect_fate_sharing_support_amended_witness :
    (detect_fate_sharing_support envWin32Fail Caches.init).1
      = some ((detect_fate_sharing_support envWin32Fail
          Caches.init).2.win32_job.toBool) ∧
    (detect_fate_sharing_support envLinuxFail Caches.init).1
      = some ((detect_fate_sharing_support envLinuxFail
          Caches.init).2.linux_prctl.toBool) ∧
    (detect_fate_sharing_support envDarwin Caches.init).1 = none :=
  ⟨(detect_fate_sharing_support_amended envWin32Fail Caches.init).1 (by decide),
   (detect_fate_sharing_support_amended envLinuxFail Caches.init).2.1
     (by decide) (by decide),
   ((detect_fate_sharing_support_amended envDarwin Caches.init).2.2
     (by decide) (by decide)).1⟩

/-- C7: calling a bind function when the corresponding capability probe
reports `false` raises an `AssertionError` — a loud contract violation, never
a silent no-op. -/
theorem bind_without_capability_asserts (env : Env) (st : Caches)
    (c : PrctlCache) (child : Int)
    (hl : (detect_fate_sharing_support_linux env c).1 = false)
    (hw : (detect_fate_sharing_support_win32 env st.win32_job
        st.win32_assign).1 = false) :
    (set_kill_on_parent_death_linux env c).2
      = Except.error (BindErr.assertionError prctlUnavailableMsg) ∧
    (set_kill_child_on_death_win32 env st (ChildProc.handle child)).2
      = Except.error (BindErr.assertionError assignUnavailableMsg) := by
  constructor
  · unfold set_kill_on_parent_death_linux
    simp [hl]
  · unfold set_kill_child_on_death_win32
    simp [hw]

/-- Witness for C7 at a concrete input: on a non-Linux, non-win32 platform
both probes report `false` and both bind functions fail their assert. -/
theorem bind_without_capability_asserts_witness :
    (set_kill_on_parent_death_linux envDarwin PrctlCache.unprobed).2
      = Except.error (BindErr.assertionError prctlUnavailableMsg) ∧
    (set_kill_child_on_death_win32 envDarwin Caches.init
        (ChildProc.handle 42)).2
      = Except.error (BindErr.assertionError assignUnavailableMsg) :=
  bind_without_capability_asserts envDarwin Caches.init PrctlCache.unprobed 42
    (by decide) (by decide)

/-- C8: when the capability is supported but the OS call fails — `prctl`
returning nonzero on Linux, a failed `AssignProcessToJobObject` on win32 —
the bind function raises `OSError` carrying the raw platform error code
(`errno` / last error); on OS-call success it raises nothing. -/
theorem bind_os_failure_surfaced (env : Env) (st : Caches)
    (c : PrctlCache) (child : Int) :
    ((detect_fate_sharing_support_linux env c).1 = true →
      (env.prctl PR_SET_PDEATHSIG SIGKILL ≠ 0 →
        (set_kill_on_parent_death_linux env c).2
          = Except.error (BindErr.osError env.errno prctlFailMsg)) ∧
      (env.prctl PR_SET_PDEATHSIG SIGKILL = 0 →
        (set_kill_on_parent_death_linux env c).2 = Except.ok ())) ∧
    ((detect_fate_sharing_support_win32 env st.win32_job
        st.win32_assign).1 = true →
      (env.assign_ok = false →
        (set_kill_child_on_death_win32 env st (ChildProc.handle child)).2
          = Except.error (BindErr.osError env.last_error assignFailMsg)) ∧
      (env.assign_ok = true →
        (set_kill_child_on_death_win32 env st (ChildProc.handle child)).2
          = Except.ok ())) := by
  constructor
  · intro hd
    constructor
    · intro hp
      unfold set_kill_on_parent_death_linux
      simp [hd, hp]
    · intro hp
      unfold set_kill_on_parent_death_linux
      simp [hd, hp]
  · intro hd
    constructor
    · intro ha
      unfold set_kill_child_on_death_win32
      simp [hd, ha]
    · intro ha
      unfold set_kill_child_on_death_win32
      simp [hd, ha]

/-- Witness for C8 at concrete inputs: the Linux bind surfaces `errno = 7`
when `prctl` returns nonzero; the win32 bind surfaces last error `5` when
assignment fails. -/
theorem bind_os_failure_surfaced_witness :
    (set_kill_on_parent_death_linux envLinuxFail PrctlCache.unprobed).2
      = Except.error (BindErr.osError 7 prctlFailMsg) ∧
    (set_kill_child_on_death_win32 envWin32Fail Caches.init
        (ChildProc.handle 42)).2
      = Except.error (BindErr.osError 5 assignFailMsg) :=
  ⟨((bind_os_failure_surfaced envLinuxFail Caches.init PrctlCache.unprobed
      42).1 (by decide)).1 (by decide),
   ((bind_os_failure_surfaced envWin32Fail Caches.init PrctlCache.unprobed
      42).2 (by decide)).1 (by decide)⟩
